import Mathlib

/-!
Verification of the distributed-lock scheduler manager
(`app/scheduler/manager.py`).

The lock store (Redis) is modelled as an association list from keys to
entries `(value, ttl)`.  Keys are unique in every store reachable from the
operations below, since the only insertion is a set-if-absent.

The Python module's constant `LOCK_KEY_PREFIX = "scheduler:lock:"` is folded
into `lockKey`, and `DEFAULT_LOCK_TTL = 300` appears as `default_lock_ttl`.
-/

set_option autoImplicit false

/-- A Redis entry: the stored string value together with the expiry (TTL in
seconds) it was set with. -/
abbrev Store := List (String × String × Nat)

/-- `GET key`: the first entry whose key matches, if any. -/
def Store.get : Store → String → Option String
  | [], _ => none
  | (k2, v, _) :: rest, k => if k2 = k then some v else Store.get rest k

/-- The TTL the stored key was set with (`TTL key`, idealised). -/
def Store.getTTL : Store → String → Option Nat
  | [], _ => none
  | (k2, _, t) :: rest, k => if k2 = k then some t else Store.getTTL rest k

/-- `DEL key`: remove the key from the store. -/
def Store.del (s : Store) (k : String) : Store :=
  s.filter (fun e => e.1 ≠ k)

/-- `SET key value NX EX ttl`: set the key only if it is absent, with expiry
`ttl`; returns the updated store and whether the set happened. -/
def Store.setNxEx (s : Store) (k v : String) (ttl : Nat) : Store × Bool :=
  match Store.get s k with
  | some _ => (s, false)
  | none => ((k, v, ttl) :: s, true)

/-- The lock key for a job (`LOCK_KEY_PREFIX` + job id in the source). -/
def lockKey (jobId : String) : String :=
  "scheduler:lock:" ++ jobId

/-- `DEFAULT_LOCK_TTL` from the source. -/
def default_lock_ttl : Nat := 300

/-- Semantics of `RELEASE_LOCK_SCRIPT`, the Lua script run atomically by the
store: if `GET key` equals the caller's token, `DEL key` (which returns 1,
the number of keys deleted, since the key is present); otherwise return 0
and leave the store unchanged. -/
def releaseLockScript (s : Store) (k token : String) : Store × Nat :=
  if Store.get s k = some token then (Store.del s k, 1) else (s, 0)

/-- `SchedulerManager._acquire_lock`, happy path: one `SET ... NX EX ttl` on
`lockKey jobId` with the freshly generated `token` (the `uuid4` value is a
parameter here); returns the token if the set happened, `None` otherwise. -/
def acquire_lock (s : Store) (jobId token : String) (ttl : Nat) : Store × Option String :=
  let r := Store.setNxEx s (lockKey jobId) token ttl
  if r.2 then (r.1, some token) else (r.1, none)

/-- `SchedulerManager._release_lock`, happy path: run `RELEASE_LOCK_SCRIPT`
on `lockKey jobId` with the caller's token and report whether the script
returned 1. -/
def release_lock (s : Store) (jobId token : String) : Store × Bool :=
  let r := releaseLockScript s (lockKey jobId) token
  (r.1, r.2 == 1)

/-- C1: releasing deletes the key and returns true exactly when the stored
value equals the caller's token; with a foreign (or absent) stored value it
returns false and leaves the store unchanged, so a stale holder never
deletes a lock it does not own. -/
theorem release_lock_ownership (s : Store) (jobId token : String) :
    ((release_lock s jobId token).2 = true ↔
      Store.get s (lockKey jobId) = some token) ∧
    (Store.get s (lockKey jobId) = some token →
      (release_lock s jobId token).1 = Store.del s (lockKey jobId)) ∧
    (Store.get s (lockKey jobId) ≠ some token →
      (release_lock s jobId token).1 = s) := by
  by_cases h : Store.get s (lockKey jobId) = some token <;>
    simp [release_lock, releaseLockScript, h]

theorem release_lock_ownership_witness :
    (release_lock [("scheduler:lock:job", "tokB", 300)] "job" "tokA").2 = false ∧
    (release_lock [("scheduler:lock:job", "tokB", 300)] "job" "tokA").1 =
      [("scheduler:lock:job", "tokB", 300)] := by
  have h := release_lock_ownership [("scheduler:lock:job", "tokB", 300)] "job" "tokA"
  refine ⟨by decide, h.2.2 (by decide)⟩

/-- C2: acquire is one atomic set-if-absent-with-expiry on
`"scheduler:lock:" ++ jobId`: when the key is absent it returns the token
and the key is now stored with expiry `ttl`; when the key is present it
returns `none` and the store is untouched. -/
theorem acquire_lock_spec (s : Store) (jobId token : String) (ttl : Nat) :
    (Store.get s (lockKey jobId) = none →
      acquire_lock s jobId token ttl = ((lockKey jobId, token, ttl) :: s, some token) ∧
      Store.get ((lockKey jobId, token, ttl) :: s) (lockKey jobId) = some token ∧
      Store.getTTL ((lockKey jobId, token, ttl) :: s) (lockKey jobId) = some ttl) ∧
    ((Store.get s (lockKey jobId)).isSome = true →
      acquire_lock s jobId token ttl = (s, none)) ∧
    lockKey jobId = "scheduler:lock:" ++ jobId := by
  refine ⟨fun h => ?_, fun h => ?_, rfl⟩
  · simp [acquire_lock, Store.setNxEx, h, Store.get, Store.getTTL]
  · rcases hv : Store.get s (lockKey jobId) with _ | v
    · rw [hv] at h; simp at h
    · simp [acquire_lock, Store.setNxEx, hv]

theorem acquire_lock_spec_witness :
    acquire_lock [] "job" "tok" 300 =
      ([("scheduler:lock:job", "tok", 300)], some "tok") ∧
    acquire_lock [("scheduler:lock:job", "other", 300)] "job" "tok" 300 =
      ([("scheduler:lock:job", "other", 300)], none) := by
  refine ⟨((acquire_lock_spec [] "job" "tok" 300).1 (by decide)).1, ?_⟩
  exact (acquire_lock_spec [("scheduler:lock:job", "other", 300)] "job" "tok" 300).2.1
    (by decide)

/-!
The distributed-lock wrapper (`_wrap_with_distributed_lock`).

The wrapper acquires the lock, skips the tick if it is held, otherwise runs
the handler in a `try` whose `finally` releases the lock.  Store failures
are modelled by an environment of three flags:
  * `storeUpOnAcquire`: the `redis.set` in `_acquire_lock` succeeds
    (there is no try/except around it in the source — if it raises, the
    exception leaves the wrapper);
  * `releaseScriptFails`: the `evalsha` in `_release_lock` raises (caught,
    logged, retried with `eval`; `script_load` raising behaves the same);
  * `releaseFallbackFails`: the fallback `eval` raises too (not caught:
    the exception leaves `_release_lock`).
The Python `finally` semantics are kept: if the release raises, its
exception replaces whatever the `try` block produced.
-/

/-- Failure modes of the lock-store connection during one invocation. -/
structure Env where
  storeUpOnAcquire : Bool
  releaseScriptFails : Bool
  releaseFallbackFails : Bool
deriving Repr, DecidableEq

/-- What the job handler does when invoked: return a value or raise. -/
inductive HandlerOutcome (α : Type) where
  | ok (v : α)
  | err (msg : String)
deriving Repr, DecidableEq

/-- Observable outcome of one wrapped invocation: skipped (lock held,
wrapper returned `None`), a returned value, or an exception escaping it. -/
inductive Outcome (α : Type) where
  | skipped
  | value (v : α)
  | error (msg : String)
deriving Repr, DecidableEq

/-- Trace events of one wrapped invocation. -/
inductive Ev where
  | acquireError
  | acquireFailed
  | acquired
  | handlerRun
  | released (ok : Bool)
  | releaseError
deriving Repr, DecidableEq

/-- Whether an event is an invocation of `_release_lock` (completed or
raising). -/
def Ev.isRelease : Ev → Bool
  | .released _ => true
  | .releaseError => true
  | _ => false

/-- `_acquire_lock` including the store connection: `redis.set` has no
try/except in the source, so a store outage raises. -/
def acquire_lock_op (storeUp : Bool) (s : Store) (jobId token : String)
    (ttl : Nat) : Except String (Store × Option String) :=
  if storeUp then Except.ok (acquire_lock s jobId token ttl)
  else Except.error "ConnectionError"

/-- `_release_lock` including its error handling: a raising `evalsha` is
caught and retried with `eval` (both run `RELEASE_LOCK_SCRIPT`); a raising
fallback `eval` is not caught and the exception escapes. -/
def release_lock_op (env : Env) (s : Store) (jobId token : String) :
    Except String (Store × Bool) :=
  if env.releaseScriptFails then
    if env.releaseFallbackFails then Except.error "ConnectionError"
    else Except.ok (release_lock s jobId token)
  else Except.ok (release_lock s jobId token)

/-- `_wrap_with_distributed_lock`'s `wrapper`: acquire; on `None` log and
return `None` (skip); otherwise run the handler with the release in a
`finally`.  Returns the final store, the invocation outcome, and the event
trace. -/
def wrap_with_distributed_lock {α : Type} (env : Env) (handler : HandlerOutcome α)
    (s : Store) (jobId token : String) (ttl : Nat) :
    Store × Outcome α × List Ev :=
  match acquire_lock_op env.storeUpOnAcquire s jobId token ttl with
  | .error m => (s, .error m, [.acquireError])
  | .ok (s1, none) => (s1, .skipped, [.acquireFailed])
  | .ok (s1, some tok) =>
    let tryOutcome : Outcome α :=
      match handler with
      | .ok v => .value v
      | .err m => .error m
    match release_lock_op env s1 jobId tok with
    | .ok (s2, rel) => (s2, tryOutcome, [.acquired, .handlerRun, .released rel])
    | .error m2 => (s1, .error m2, [.acquired, .handlerRun, .releaseError])

/-- C3: when the lock is already held, the invocation skips the tick: the
handler never runs, the outcome is a plain skip (no error), and the store
is unchanged. -/
theorem wrap_skips_when_lock_held {α : Type} (env : Env) (handler : HandlerOutcome α)
    (s : Store) (jobId token : String) (ttl : Nat) :
    env.storeUpOnAcquire = true →
    (Store.get s (lockKey jobId)).isSome = true →
    wrap_with_distributed_lock env handler s jobId token ttl =
      (s, .skipped, [.acquireFailed]) ∧
    Ev.handlerRun ∉ (wrap_with_distributed_lock env handler s jobId token ttl).2.2 := by
  intro hup hheld
  rcases hv : Store.get s (lockKey jobId) with _ | v
  · rw [hv] at hheld; simp at hheld
  · simp [wrap_with_distributed_lock, acquire_lock_op, hup, acquire_lock,
      Store.setNxEx, hv]

theorem wrap_skips_when_lock_held_witness :
    wrap_with_distributed_lock ⟨true, false, false⟩ (HandlerOutcome.ok (7 : Nat))
        [("scheduler:lock:job", "other", 300)] "job" "tok" 300 =
      ([("scheduler:lock:job", "other", 300)], .skipped, [.acquireFailed]) := by
  have h := wrap_skips_when_lock_held ⟨true, false, false⟩ (HandlerOutcome.ok (7 : Nat))
    [("scheduler:lock:job", "other", 300)] "job" "tok" 300 rfl (by decide)
  exact h.1

/-- C4: on every path on which the handler ran, the acquisition had
succeeded and the invocation ends with a release attempt — completed or
itself raising — after the handler; no path runs the handler under the lock
without invoking the release. -/
theorem wrap_always_releases {α : Type} (env : Env) (handler : HandlerOutcome α)
    (s : Store) (jobId token : String) (ttl : Nat) :
    Ev.handlerRun ∈ (wrap_with_distributed_lock env handler s jobId token ttl).2.2 →
    ∃ e, (wrap_with_distributed_lock env handler s jobId token ttl).2.2 =
        [.acquired, .handlerRun, e] ∧ Ev.isRelease e = true := by
  intro hrun
  rcases env with ⟨up, sf, ff⟩
  rcases up with _ | _
  · simp [wrap_with_distributed_lock, acquire_lock_op] at hrun
  · rcases hv : Store.get s (lockKey jobId) with _ | v
    · rcases sf with _ | _ <;> rcases ff with _ | _ <;>
        simp [wrap_with_distributed_lock, acquire_lock_op, acquire_lock,
          Store.setNxEx, hv, release_lock_op, Ev.isRelease]
    · simp [wrap_with_distributed_lock, acquire_lock_op, acquire_lock,
        Store.setNxEx, hv] at hrun

theorem wrap_always_releases_witness :
    ∃ e, (wrap_with_distributed_lock ⟨true, false, false⟩
        (HandlerOutcome.err "boom" : HandlerOutcome Nat) [] "job" "tok" 300).2.2 =
      [.acquired, .handlerRun, e] ∧ Ev.isRelease e = true :=
  wrap_always_releases ⟨true, false, false⟩ (HandlerOutcome.err "boom")
    [] "job" "tok" 300 (by decide)

/-- C5 counterexample: with the lock held by this invocation, a handler
that raised "handler boom", and a release whose `evalsha` and fallback
`eval` both raise, the exception surfacing from the wrapped invocation is
the release's connection error — the handler's original error is masked,
refuting "the original handler error surfaces for every possible failure
of the release path". -/
theorem release_failure_masks_handler_error :
    wrap_with_distributed_lock ⟨true, true, true⟩
        (HandlerOutcome.err "handler boom" : HandlerOutcome Nat) [] "job" "tokA" 300 =
      ([("scheduler:lock:job", "tokA", 300)], .error "ConnectionError",
        [.acquired, .handlerRun, .releaseError]) ∧
    (wrap_with_distributed_lock ⟨true, true, true⟩
        (HandlerOutcome.err "handler boom" : HandlerOutcome Nat) [] "job" "tokA" 300).2.1 ≠
      Outcome.error "handler boom" := by
  refine ⟨by decide, by decide⟩

/-- C5 amended: whenever `_release_lock` completes — the release returned
false (not owner), or the first script call failed but the `eval` fallback
succeeded — the handler's original error is the one surfacing from the
wrapped invocation; only a release whose fallback also raises replaces it. -/
theorem handler_error_surfaces_when_release_completes {α : Type} (env : Env)
    (msg : String) (s : Store) (jobId token : String) (ttl : Nat) :
    env.storeUpOnAcquire = true →
    (env.releaseScriptFails = true → env.releaseFallbackFails = false) →
    Store.get s (lockKey jobId) = none →
    (wrap_with_distributed_lock env (HandlerOutcome.err msg : HandlerOutcome α)
        s jobId token ttl).2.1 = Outcome.error msg := by
  intro hup hrel hfree
  rcases env with ⟨up, sf, ff⟩
  subst hup
  rcases sf with _ | _
  · simp [wrap_with_distributed_lock, acquire_lock_op, acquire_lock,
      Store.setNxEx, hfree, release_lock_op]
  · have hff : ff = false := hrel rfl
    subst hff
    simp [wrap_with_distributed_lock, acquire_lock_op, acquire_lock,
      Store.setNxEx, hfree, release_lock_op]

theorem handler_error_surfaces_when_release_completes_witness :
    (wrap_with_distributed_lock ⟨true, true, false⟩
        (HandlerOutcome.err "handler boom" : HandlerOutcome Nat)
        [] "job" "tokA" 300).2.1 = Outcome.error "handler boom" :=
  handler_error_surfaces_when_release_completes ⟨true, true, false⟩
    "handler boom" [] "job" "tokA" 300 rfl (fun _ => rfl) (by decide)

/-- C6 counterexample: with the store unreachable during acquire, the
wrapped invocation surfaces the acquisition's connection error instead of
skipping the tick — refuting "treated exactly like an ordinary acquisition
failure: ... no error escapes the invocation". -/
theorem acquire_error_escapes_wrapper :
    wrap_with_distributed_lock ⟨false, false, false⟩
        (HandlerOutcome.ok (0 : Nat)) [] "job" "tok" 300 =
      ([], .error "ConnectionError", [.acquireError]) ∧
    (wrap_with_distributed_lock ⟨false, false, false⟩
        (HandlerOutcome.ok (0 : Nat)) [] "job" "tok" 300).2.1 ≠
      (Outcome.skipped : Outcome Nat) := by
  refine ⟨by decide, by decide⟩

/-- C6 amended: when the store is unreachable during acquire, the
acquisition error propagates out of the wrapped invocation (it surfaces as
a job error rather than a silent skip); the handler is never invoked, the
lock store is unmodified, and no release is attempted. -/
theorem wrap_acquire_error_propagates {α : Type} (sf ff : Bool)
    (handler : HandlerOutcome α) (s : Store) (jobId token : String) (ttl : Nat) :
    wrap_with_distributed_lock ⟨false, sf, ff⟩ handler s jobId token ttl =
      (s, .error "ConnectionError", [.acquireError]) ∧
    Ev.handlerRun ∉
      (wrap_with_distributed_lock ⟨false, sf, ff⟩ handler s jobId token ttl).2.2 := by
  simp [wrap_with_distributed_lock, acquire_lock_op]

/-!
Scheduler lifecycle (`SchedulerManager.init` / `start` / `stop` and the job
mutation methods).

The APScheduler instance is modelled by what the manager configures on it:
its timezone, job defaults, registered event listeners, job table (id and
paused flag), and whether it was started.  The job modules imported by
`_register_jobs` (`app.scheduler.jobs.*`) are not part of the sources, so
the set of jobs they register is a parameter `jobSource` of `start`
(modelled from the spec: the job source collaborator supplies the job
tuples registered at `start`, called once per `start`).
-/

/-- Which listener was registered with `add_listener`. -/
inductive ListenerKind where
  | jobExecuted
  | jobError
deriving Repr, DecidableEq

/-- The job defaults passed to the `AsyncIOScheduler` constructor. -/
structure JobDefaults where
  coalesce : Bool
  maxInstances : Nat
  misfireGraceTime : Nat
deriving Repr, DecidableEq

/-- The configured state of the underlying `AsyncIOScheduler`: each job is
`(id, paused)`. -/
structure SchedulerInstance where
  timezone : String
  jobDefaults : JobDefaults
  listeners : List ListenerKind
  jobs : List (String × Bool)
  started : Bool
deriving Repr, DecidableEq

/-- The manager's own fields: `_scheduler`, `_is_running`,
`_release_lock_sha`. -/
structure SchedulerState where
  scheduler : Option SchedulerInstance
  isRunning : Bool
  releaseLockSha : Option String
deriving Repr, DecidableEq

/-- `SchedulerManager.__init__`. -/
def SchedulerState.new : SchedulerState :=
  { scheduler := none, isRunning := false, releaseLockSha := none }

/-- The `AsyncIOScheduler` built by `init`: UTC timezone, job defaults
`coalesce=True, max_instances=1, misfire_grace_time=60`, and the two event
listeners registered right after construction. -/
def freshScheduler : SchedulerInstance :=
  { timezone := "UTC"
    jobDefaults := { coalesce := true, maxInstances := 1, misfireGraceTime := 60 }
    listeners := [.jobExecuted, .jobError]
    jobs := []
    started := false }

/-- `SchedulerManager.init`: if `_scheduler` is already set, log a warning
and return; otherwise build the scheduler and register the listeners. -/
def SchedulerManager.init (st : SchedulerState) : SchedulerState :=
  if st.scheduler.isSome then st
  else { st with scheduler := some freshScheduler }

/-- `SchedulerManager.start`: if `_scheduler is None`, call `init`; if
already running, log a warning and return; otherwise register all jobs
from the job source and start the scheduler.  (After the first step the
scheduler is always present; the `none` branch is unreachable.) -/
def SchedulerManager.start (jobSource : List String) (st : SchedulerState) :
    SchedulerState :=
  let st1 := if st.scheduler.isNone then SchedulerManager.init st else st
  if st1.isRunning then st1
  else
    match st1.scheduler with
    | none => st1
    | some inst =>
      { st1 with
          scheduler := some { inst with
            jobs := inst.jobs ++ jobSource.map (fun j => (j, false))
            started := true }
          isRunning := true }

/-- `SchedulerManager.stop`: if not running, return immediately; otherwise
shut the scheduler down (waiting for running jobs) and clear the running
flag. -/
def SchedulerManager.stop (st : SchedulerState) : SchedulerState :=
  if st.isRunning then
    match st.scheduler with
    | none => st
    | some inst =>
      { st with scheduler := some { inst with started := false }, isRunning := false }
  else st

/-- Whether the underlying scheduler knows the job id. -/
def SchedulerInstance.hasJob (inst : SchedulerInstance) (jobId : String) : Bool :=
  (inst.jobs.map Prod.fst).contains jobId

/-- APScheduler `remove_job`: raises `JobLookupError` on an unknown id. -/
def SchedulerInstance.removeJob (inst : SchedulerInstance) (jobId : String) :
    Except String SchedulerInstance :=
  if inst.hasJob jobId then
    Except.ok { inst with jobs := inst.jobs.filter (fun j => j.1 ≠ jobId) }
  else Except.error "JobLookupError"

/-- APScheduler `pause_job`: raises `JobLookupError` on an unknown id. -/
def SchedulerInstance.pauseJob (inst : SchedulerInstance) (jobId : String) :
    Except String SchedulerInstance :=
  if inst.hasJob jobId then
    Except.ok { inst with
      jobs := inst.jobs.map (fun j => if j.1 = jobId then (j.1, true) else j) }
  else Except.error "JobLookupError"

/-- APScheduler `resume_job`: raises `JobLookupError` on an unknown id. -/
def SchedulerInstance.resumeJob (inst : SchedulerInstance) (jobId : String) :
    Except String SchedulerInstance :=
  if inst.hasJob jobId then
    Except.ok { inst with
      jobs := inst.jobs.map (fun j => if j.1 = jobId then (j.1, false) else j) }
  else Except.error "JobLookupError"

/-- `SchedulerManager.remove_job`: the whole body — including the
`self.scheduler` property, which raises `RuntimeError` when
`_scheduler is None` — sits inside `try: ... except Exception: return
False`. -/
def SchedulerManager.remove_job (st : SchedulerState) (jobId : String) :
    SchedulerState × Bool :=
  match st.scheduler with
  | none => (st, false)
  | some inst =>
    match inst.removeJob jobId with
    | .ok inst2 => ({ st with scheduler := some inst2 }, true)
    | .error _ => (st, false)

/-- `SchedulerManager.pause_job`, same try/except shape as `remove_job`. -/
def SchedulerManager.pause_job (st : SchedulerState) (jobId : String) :
    SchedulerState × Bool :=
  match st.scheduler with
  | none => (st, false)
  | some inst =>
    match inst.pauseJob jobId with
    | .ok inst2 => ({ st with scheduler := some inst2 }, true)
    | .error _ => (st, false)

/-- `SchedulerManager.resume_job`, same try/except shape as `remove_job`. -/
def SchedulerManager.resume_job (st : SchedulerState) (jobId : String) :
    SchedulerState × Bool :=
  match st.scheduler with
  | none => (st, false)
  | some inst =>
    match inst.resumeJob jobId with
    | .ok inst2 => ({ st with scheduler := some inst2 }, true)
    | .error _ => (st, false)

/-- C7: `init` is idempotent — on an already-initialized manager it returns
without touching any state, so `init` after `init` equals a single `init`;
and a first `init` installs exactly `freshScheduler` (defaults and both
listeners). -/
theorem init_idempotent (st : SchedulerState) :
    SchedulerManager.init (SchedulerManager.init st) = SchedulerManager.init st ∧
    (st.scheduler.isSome = true → SchedulerManager.init st = st) ∧
    (st.scheduler = none →
      (SchedulerManager.init st).scheduler = some freshScheduler) := by
  rcases st with ⟨sch, run, sha⟩
  rcases sch with _ | inst <;> simp [SchedulerManager.init]

theorem init_idempotent_witness :
    SchedulerManager.init
        { scheduler := some freshScheduler, isRunning := false, releaseLockSha := none } =
      { scheduler := some freshScheduler, isRunning := false, releaseLockSha := none } :=
  (init_idempotent
    { scheduler := some freshScheduler, isRunning := false, releaseLockSha := none }).2.1 rfl

/-- C8: `start` on an uninitialized manager does not fail: it first runs
`init` itself (installing `freshScheduler`, whose job defaults are the
global execution policy), then registers the job source's jobs and starts
running. -/
theorem start_initializes_when_uninitialized (jobSource : List String)
    (st : SchedulerState) :
    st.scheduler = none →
    st.isRunning = false →
    SchedulerManager.start jobSource st =
      { st with
          scheduler := some { freshScheduler with
            jobs := jobSource.map (fun j => (j, false))
            started := true }
          isRunning := true } ∧
    freshScheduler.jobDefaults =
      { coalesce := true, maxInstances := 1, misfireGraceTime := 60 } := by
  intro h1 h2
  rcases st with ⟨sch, run, sha⟩
  simp only at h1 h2
  subst h1; subst h2
  exact ⟨by simp [SchedulerManager.start, SchedulerManager.init, freshScheduler], rfl⟩

theorem start_initializes_when_uninitialized_witness :
    SchedulerManager.start ["a"] SchedulerState.new =
      { SchedulerState.new with
          scheduler := some { freshScheduler with jobs := [("a", false)], started := true }
          isRunning := true } :=
  (start_initializes_when_uninitialized ["a"] SchedulerState.new rfl rfl).1

/-- C9: `remove_job`, `pause_job` and `resume_job` always return a boolean
(the try/except around each body catches everything, including the
`RuntimeError` of the `scheduler` property before `init`): before `init`
each returns false leaving the state untouched, and with a scheduler
present each returns true exactly when the job id is known. -/
theorem job_mutations_never_propagate (st : SchedulerState) (jobId : String) :
    (st.scheduler = none →
      SchedulerManager.remove_job st jobId = (st, false) ∧
      SchedulerManager.pause_job st jobId = (st, false) ∧
      SchedulerManager.resume_job st jobId = (st, false)) ∧
    (∀ inst, st.scheduler = some inst →
      ((SchedulerManager.remove_job st jobId).2 = true ↔ inst.hasJob jobId = true) ∧
      ((SchedulerManager.pause_job st jobId).2 = true ↔ inst.hasJob jobId = true) ∧
      ((SchedulerManager.resume_job st jobId).2 = true ↔ inst.hasJob jobId = true)) := by
  rcases st with ⟨sch, run, sha⟩
  constructor
  · intro h
    simp only at h
    subst h
    simp [SchedulerManager.remove_job, SchedulerManager.pause_job,
      SchedulerManager.resume_job]
  · intro inst h
    simp only at h
    subst h
    by_cases hj : inst.hasJob jobId <;>
      simp [SchedulerManager.remove_job, SchedulerManager.pause_job,
        SchedulerManager.resume_job, SchedulerInstance.removeJob,
        SchedulerInstance.pauseJob, SchedulerInstance.resumeJob, hj]

theorem job_mutations_never_propagate_witness :
    SchedulerManager.remove_job SchedulerState.new "x" = (SchedulerState.new, false) ∧
    (SchedulerManager.pause_job
        { SchedulerState.new with
            scheduler := some { freshScheduler with jobs := [("x", false)] } } "x").2 =
      true := by
  have h1 := (job_mutations_never_propagate SchedulerState.new "x").1 rfl
  have h2 := (job_mutations_never_propagate
    { SchedulerState.new with
        scheduler := some { freshScheduler with jobs := [("x", false)] } } "x").2
    { freshScheduler with jobs := [("x", false)] } rfl
  exact ⟨h1.1, h2.2.1.mpr (by decide)⟩

/-- C10: `stop` on a manager that is not running is a no-op returning the
state unchanged; only a running manager shuts its scheduler down and clears
the running flag. -/
theorem stop_frame (st : SchedulerState) :
    (st.isRunning = false → SchedulerManager.stop st = st) ∧
    (∀ inst, st.isRunning = true → st.scheduler = some inst →
      SchedulerManager.stop st =
        { st with
            scheduler := some { inst with started := false }
            isRunning := false }) := by
  rcases st with ⟨sch, run, sha⟩
  constructor
  · intro h
    simp only at h
    subst h
    simp [SchedulerManager.stop]
  · intro inst h1 h2
    simp only at h1 h2
    subst h1; subst h2
    simp [SchedulerManager.stop]

theorem stop_frame_witness :
    SchedulerManager.stop SchedulerState.new = SchedulerState.new ∧
    SchedulerManager.stop
        { scheduler := some { freshScheduler with started := true }
          isRunning := true, releaseLockSha := none } =
      { scheduler := some freshScheduler, isRunning := false, releaseLockSha := none } := by
  have h1 := (stop_frame SchedulerState.new).1 rfl
  have h2 := (stop_frame
    { scheduler := some { freshScheduler with started := true }
      isRunning := true, releaseLockSha := none }).2
    { freshScheduler with started := true } rfl rfl
  exact ⟨h1, h2⟩
